import Mathlib

/-!
# Verification of the SQLWarriors ETL / benchmarking harness

Shallow embedding, in Lean 4, of the parts of the repository that the
specification's testable claims are about:

* `src/etl/transformer.py` — `DataTransformer.deduplicate`;
* `src/etl/loader_mongodb_csv.py` — `MongoCSVLoader.load_products`;
* `src/etl/loader_postgres_csv.py` — the four CSV loaders,
  `verify_data_integrity` and `run_full_load`;
* `src/benchmarks/query_performance.py` — the month derivation of the two
  price-trend queries and `QueryBenchmark.benchmark_query`;
* `src/analysis/generate_dashboard.py` — `measure_storage_size` and the
  per-query chart-entry construction of `generate_visualization`.

Python dictionaries holding heterogeneous values are embedded as
association lists over a small value type `PyVal`; machine floats used
only as byte counts and as elapsed seconds are embedded as `ℚ`,
with the benchmark's use of `float('inf')` embedded as an extended
rational `ETime`.  Fallible steps (a raised exception) are embedded as
`Except` / `Option` results.
-/

/-! ## Values of Python records (`src/etl/transformer.py`)

`deduplicate` works on `List[Dict]`; the keys looked up are strings and
the values relevant to truthiness are `None`, strings and integers. -/

inductive PyVal where
  | vnone
  | vstr (s : String)
  | vint (n : Int)
deriving DecidableEq, Repr

/-- Python truthiness of a value: `None`, `''` and `0` are falsy. -/
def PyVal.truthy : PyVal → Bool
  | .vnone => false
  | .vstr s => s ≠ ""
  | .vint n => n ≠ 0

/-- A Python dict record: an association list from field names to values. -/
abbrev Record := List (String × PyVal)

/-- Embedding of `item.get(key_field)`: the value at the first matching key, `None`
(`PyVal.vnone`) when the key is absent. -/
def recordGet (r : Record) (k : String) : PyVal :=
  match r.find? (fun p => p.1 = k) with
  | some p => p.2
  | none => .vnone

namespace DataTransformer

/-- Loop body of `DataTransformer.deduplicate` (`transformer.py` lines
76–83): walk the list carrying the `seen` set (embedded as a list of
keys), keeping an item only when its key is truthy and not yet seen. -/
def dedupAux (keyField : String) : List Record → List PyVal → List Record
  | [], _ => []
  | item :: rest, seen =>
      let key := recordGet item keyField
      if key.truthy ∧ key ∉ seen then
        item :: dedupAux keyField rest (key :: seen)
      else
        dedupAux keyField rest seen

/-- Embedding of `DataTransformer.deduplicate(data, key_field)`. -/
def deduplicate (data : List Record) (keyField : String) : List Record :=
  dedupAux keyField data []

/-- Claimed behaviour, written from the spec's words ("returns the records
in first-seen order with every record dropped whose key already appeared
earlier in the list"): keep each record unless its key occurred in an
earlier record. -/
def claimedDedupAux (keyField : String) : List Record → List PyVal → List Record
  | [], _ => []
  | item :: rest, seen =>
      let key := recordGet item keyField
      if key ∈ seen then claimedDedupAux keyField rest seen
      else item :: claimedDedupAux keyField rest (key :: seen)

/-- Claimed deduplication, from the spec's words. -/
def claimedDedup (data : List Record) (keyField : String) : List Record :=
  claimedDedupAux keyField data []

end DataTransformer

/-! ## The MongoDB CSV loader (`src/etl/loader_mongodb_csv.py`)

CSV cells read through pandas are embedded as `Option` values: `none` is
a missing cell (pandas `NaN`), `some v` a present value.  Python's
`str(x)` applied to a pandas `NaN` produces the string `"nan"`, and
`pd.isna` applied to a value that is already a `str` is always `False`;
both facts are embedded below because `load_products` stringifies the
ASIN cell before testing it with `pd.isna`. -/

/-- Python `str` applied to an optional string cell: a missing cell
(pandas `NaN`) stringifies to `"nan"`. -/
def pyStrOfCell : Option String → String
  | none => "nan"
  | some s => s

/-- Embedding of `pd.isna` applied to a Python `str` value: always `False`, whatever
the string (including `"nan"`). -/
def pdIsnaOfStr (_ : String) : Bool := false

/-- Python `str.strip()`: drop leading and trailing whitespace (ASCII
whitespace suffices for the strings this loader sees). -/
def pyStrip (s : String) : String :=
  String.mk
    (((s.toList.dropWhile Char.isWhitespace).reverse.dropWhile
      Char.isWhitespace).reverse)

/-- One element of an embedded `price_history` array, as built by
`MongoCSVLoader.load_price_history` (lines 73–84). -/
structure PriceEntry where
  date : String
  price_usd : Option ℚ
  source_category : Option String
  brand : Option String
  price_bucket : Option String
deriving DecidableEq, Repr

/-- One element of an embedded `sales_rank_history` array, as built by
`MongoCSVLoader.load_sales_rank_history` (lines 128–139). -/
structure RankEntry where
  date : String
  sales_rank : Option ℚ
  source_category : Option String
  brand : Option String
  rank_bucket : Option String
deriving DecidableEq, Repr

/-- A row of `products.csv` as iterated by the Mongo loader: each cell is
`none` when the pandas value is `NaN`. -/
structure MongoProductRow where
  asin : Option String
  title : Option String
  brand : Option String
  source_category : Option String
  current_price : Option ℚ
  current_sales_rank : Option ℚ
  rating : Option ℚ
  review_count : Option ℚ
deriving DecidableEq, Repr

/-- A document of the `products` collection as assembled by
`MongoCSVLoader.load_products` (lines 186–213); the two `datetime.utcnow`
timestamps are wall-clock values and are not embedded. -/
structure ProductDoc where
  asin : String
  title : Option String
  brand : Option String
  category : Option String
  current_price : Option ℚ
  current_sales_rank : Option ℚ
  rating : Option ℚ
  review_count : Option ℚ
  price_history : List PriceEntry
  sales_rank_history : List RankEntry
deriving DecidableEq, Repr

/-- The two in-memory ASIN-to-history dictionaries, embedded as
association lists. -/
abbrev HistDict (α : Type) := List (String × List α)

/-- Embedding of `dict.get(asin, [])`: the collected list for an ASIN, `[]` when the
ASIN has no entry. -/
def histLookup {α : Type} (d : HistDict α) (asin : String) : List α :=
  match d.find? (fun p => p.1 = asin) with
  | some p => p.2
  | none => []

namespace MongoCSVLoader

/-- State of a `MongoCSVLoader`: the target collection's documents and
the two transient history dictionaries. -/
structure State where
  collection : List ProductDoc
  price_history_dict : HistDict PriceEntry
  sales_rank_history_dict : HistDict RankEntry

/-- Per-row body of `load_products` (lines 180–215): stringify and strip
the ASIN cell, skip the row when `pd.isna(asin) or asin == ''`, and
otherwise build the document embedding the two collected history arrays
(`self.price_history_dict.get(asin, [])` and
`self.sales_rank_history_dict.get(asin, [])`). -/
def mkProductDoc (priceDict : HistDict PriceEntry)
    (rankDict : HistDict RankEntry) (row : MongoProductRow) :
    Option ProductDoc :=
  let asin := pyStrip (pyStrOfCell row.asin)
  if pdIsnaOfStr asin || asin == "" then none
  else some {
    asin := asin
    title := row.title
    brand := row.brand
    category := row.source_category
    current_price := row.current_price
    current_sales_rank := row.current_sales_rank
    rating := row.rating
    review_count := row.review_count
    price_history := histLookup priceDict asin
    sales_rank_history := histLookup rankDict asin }

/-- All documents emitted (appended to `documents_to_insert`) by a run of
`load_products` over the given rows, in row order. -/
def emittedDocs (priceDict : HistDict PriceEntry)
    (rankDict : HistDict RankEntry) (rows : List MongoProductRow) :
    List ProductDoc :=
  rows.filterMap (mkProductDoc priceDict rankDict)

/-- Batched insertion of the emitted documents (lines 218–240): the
buffer is flushed through `insert_many` each time it reaches
`batch_size`, and once more at the end if non-empty.  `fails k` tells
whether the `k`-th `insert_many` call raises; a failed batch is logged
and dropped (`documents_to_insert.clear()` in both branches). -/
def insertLoop (batchSize : ℕ) (fails : ℕ → Bool) :
    List ProductDoc → List ProductDoc → ℕ → List ProductDoc → List ProductDoc
  | [], buffer, callIdx, col =>
      if buffer.isEmpty then col
      else if fails callIdx then col else col ++ buffer
  | d :: rest, buffer, callIdx, col =>
      let buffer' := buffer ++ [d]
      if batchSize ≤ buffer'.length then
        if fails callIdx then insertLoop batchSize fails rest [] (callIdx + 1) col
        else insertLoop batchSize fails rest [] (callIdx + 1) (col ++ buffer')
      else insertLoop batchSize fails rest buffer' callIdx col

/-- Embedding of `MongoCSVLoader.load_products` (lines 154–247) on an in-memory state:
emit one document per kept row, insert them in batches, and finally clear
both history dictionaries (lines 245–246). -/
def load_products (st : State) (rows : List MongoProductRow)
    (batchSize : ℕ) (fails : ℕ → Bool) : State :=
  let docs := emittedDocs st.price_history_dict st.sales_rank_history_dict rows
  { collection := insertLoop batchSize fails docs [] 0 st.collection
    price_history_dict := []
    sales_rank_history_dict := [] }

end MongoCSVLoader

/-! ## The PostgreSQL CSV loader (`src/etl/loader_postgres_csv.py`)

Each CSV is embedded as an optional list of rows: `none` when the file
does not exist at the given path (`os.path.exists` is false), `some rows`
otherwise.  The `COPY` command appends the file's rows to the target
table and reports `cursor.rowcount`, the number of rows copied.  Cell
values other than the join key are kept as the raw CSV text, since no
claim depends on their parsed form; `review_count` of `products.csv` is
kept as an optional rational because `load_products` preprocesses it with
`fillna(0).astype(int)`. -/

/-- Python `float`-to-`int` conversion (`astype(int)`): truncation toward
zero. -/
def pyIntOfRat (q : ℚ) : ℤ := if 0 ≤ q then ⌊q⌋ else ⌈q⌉

/-- A row of `products.csv` before preprocessing. -/
structure ProductsCSVRow where
  asin : String
  title : String
  brand : String
  source_category : String
  current_price : String
  current_sales_rank : String
  rating : String
  review_count : Option ℚ
deriving DecidableEq, Repr

/-- A row of the `products` table after the loader's preprocessing
(`df['review_count'].fillna(0).astype(int)`, line 78). -/
structure ProductsTableRow where
  asin : String
  title : String
  brand : String
  source_category : String
  current_price : String
  current_sales_rank : String
  rating : String
  review_count : ℤ
deriving DecidableEq, Repr

/-- A row of `price_history.csv` / the `price_history` table (the COPY
column list of lines 146–148). -/
structure PriceHistoryRow where
  asin : String
  date : String
  price_usd : String
  source_category : String
  brand : String
  price_bucket : String
deriving DecidableEq, Repr

/-- A row of `sales_rank_history.csv` / the `sales_rank_history` table
(the COPY column list of lines 192–194). -/
structure SalesRankHistoryRow where
  asin : String
  date : String
  sales_rank : String
  source_category : String
  brand : String
  rank_bucket : String
deriving DecidableEq, Repr

/-- A row of `product_metrics.csv` / the `product_metrics` table (the
COPY column list of lines 239–242). -/
structure ProductMetricsRow where
  asin : String
  source_category : String
  brand : String
  current_price : String
  current_rating : String
  review_count : String
  current_sales_rank : String
  monthly_sold : String
deriving DecidableEq, Repr

namespace PostgresCSVLoader

/-- The four tables of the relational store. -/
structure DB where
  products : List ProductsTableRow
  price_history : List PriceHistoryRow
  sales_rank_history : List SalesRankHistoryRow
  product_metrics : List ProductMetricsRow

/-- Step labels used to trace the order in which `run_full_load` performs
its work. -/
inductive LoadStep where
  | products
  | priceHistory
  | salesRankHistory
  | productMetrics
  | integrityCheck
deriving DecidableEq, Repr

/-- Preprocessing of one products row: `review_count` is
`fillna(0).astype(int)` (line 78); the other columns are copied as-is. -/
def preprocessProducts (r : ProductsCSVRow) : ProductsTableRow :=
  { asin := r.asin
    title := r.title
    brand := r.brand
    source_category := r.source_category
    current_price := r.current_price
    current_sales_rank := r.current_sales_rank
    rating := r.rating
    review_count := pyIntOfRat (r.review_count.getD 0) }

/-- Embedding of `PostgresCSVLoader.load_products` (lines 55–116): a missing file
raises `FileNotFoundError` (embedded as `.error`); otherwise the
preprocessed rows are COPY-ed into `products` and the row count
returned. -/
def load_products (path : String) (file : Option (List ProductsCSVRow))
    (tr : List LoadStep) (db : DB) :
    Except String (List LoadStep × DB × ℕ) :=
  match file with
  | none => .error ("Products file not found: " ++ path)
  | some rows =>
      let pre := rows.map preprocessProducts
      .ok (tr ++ [LoadStep.products],
           { db with products := db.products ++ pre }, pre.length)

/-- Embedding of `PostgresCSVLoader.load_price_history` (lines 118–162). -/
def load_price_history (path : String)
    (file : Option (List PriceHistoryRow)) (tr : List LoadStep) (db : DB) :
    Except String (List LoadStep × DB × ℕ) :=
  match file with
  | none => .error ("Price history file not found: " ++ path)
  | some rows =>
      .ok (tr ++ [LoadStep.priceHistory],
           { db with price_history := db.price_history ++ rows }, rows.length)

/-- Embedding of `PostgresCSVLoader.load_sales_rank_history` (lines 164–208). -/
def load_sales_rank_history (path : String)
    (file : Option (List SalesRankHistoryRow)) (tr : List LoadStep)
    (db : DB) : Except String (List LoadStep × DB × ℕ) :=
  match file with
  | none => .error ("Sales rank history file not found: " ++ path)
  | some rows =>
      .ok (tr ++ [LoadStep.salesRankHistory],
           { db with sales_rank_history := db.sales_rank_history ++ rows },
           rows.length)

/-- Result of `load_product_metrics`: trace, state, row count, and
whether the missing-file warning was logged. -/
structure MetricsOutcome where
  trace : List LoadStep
  db : DB
  count : ℕ
  warnedMissing : Bool

/-- Embedding of `PostgresCSVLoader.load_product_metrics` (lines 210–256): a missing
file is logged as a warning and skipped with a count of zero; it never
raises for a missing file. -/
def load_product_metrics (_path : String)
    (file : Option (List ProductMetricsRow)) (tr : List LoadStep)
    (db : DB) : MetricsOutcome :=
  match file with
  | none =>
      { trace := tr ++ [LoadStep.productMetrics], db := db, count := 0
        warnedMissing := true }
  | some rows =>
      { trace := tr ++ [LoadStep.productMetrics]
        db := { db with product_metrics := db.product_metrics ++ rows }
        count := rows.length
        warnedMissing := false }

/-- Number of history rows whose ASIN has no matching product (the
`LEFT JOIN … WHERE p.asin IS NULL` counts of lines 284–306). -/
def orphanCount (historyAsins : List String)
    (productAsins : List String) : ℕ :=
  (historyAsins.filter (fun a => ¬ productAsins.contains a)).length

/-- Per-ASIN record counts of a history table (the `GROUP BY asin`
subqueries of lines 309–335): for each distinct ASIN, how many rows
carry it. -/
def perAsinCounts (historyAsins : List String) : List ℕ :=
  historyAsins.dedup.map (fun a => (historyAsins.filter (fun b => b = a)).length)

/-- The `AVG` over the per-ASIN counts, with SQL `NULL` (no rows) reported as
`0` by the `float(x) if x else 0` guards of lines 320 and 334. -/
def avgPerAsin (historyAsins : List String) : ℚ :=
  if historyAsins.dedup.length = 0 then 0
  else (historyAsins.length : ℚ) / (historyAsins.dedup.length : ℚ)

/-- The `MAX` over the per-ASIN counts, `0` when there are no rows. -/
def maxPerAsin (historyAsins : List String) : ℕ :=
  (perAsinCounts historyAsins).foldr max 0

/-- The statistics dictionary assembled by `verify_data_integrity`
(lines 258–336). -/
structure IntegrityStats where
  products_count : ℕ
  price_history_count : ℕ
  sales_rank_history_count : ℕ
  product_metrics_count : ℕ
  orphaned_price_history : ℕ
  orphaned_sales_rank_history : ℕ
  orphaned_product_metrics : ℕ
  avg_price_records_per_product : ℚ
  max_price_records_per_product : ℕ
  avg_sales_rank_records_per_product : ℚ
  max_sales_rank_records_per_product : ℕ
deriving DecidableEq, Repr

/-- Warnings logged by `verify_data_integrity` (lines 348–359): one per
non-zero orphan count. -/
inductive IntegrityWarning where
  | orphanedPriceHistory (n : ℕ)
  | orphanedSalesRankHistory (n : ℕ)
  | orphanedProductMetrics (n : ℕ)
deriving DecidableEq, Repr

/-- Embedding of `PostgresCSVLoader.verify_data_integrity` (lines 258–365): count rows
per table and orphaned history rows, compute the per-product averages and
maxima, and log a warning (never an error) for each non-zero orphan
count. -/
def verify_data_integrity (db : DB) : IntegrityStats × List IntegrityWarning :=
  let productAsins := db.products.map (fun r => r.asin)
  let phAsins := db.price_history.map (fun r => r.asin)
  let srhAsins := db.sales_rank_history.map (fun r => r.asin)
  let pmAsins := db.product_metrics.map (fun r => r.asin)
  let stats : IntegrityStats :=
    { products_count := db.products.length
      price_history_count := db.price_history.length
      sales_rank_history_count := db.sales_rank_history.length
      product_metrics_count := db.product_metrics.length
      orphaned_price_history := orphanCount phAsins productAsins
      orphaned_sales_rank_history := orphanCount srhAsins productAsins
      orphaned_product_metrics := orphanCount pmAsins productAsins
      avg_price_records_per_product := avgPerAsin phAsins
      max_price_records_per_product := maxPerAsin phAsins
      avg_sales_rank_records_per_product := avgPerAsin srhAsins
      max_sales_rank_records_per_product := maxPerAsin srhAsins }
  let warnings :=
    (if 0 < stats.orphaned_price_history then
      [IntegrityWarning.orphanedPriceHistory stats.orphaned_price_history]
     else []) ++
    (if 0 < stats.orphaned_sales_rank_history then
      [IntegrityWarning.orphanedSalesRankHistory stats.orphaned_sales_rank_history]
     else []) ++
    (if 0 < stats.orphaned_product_metrics then
      [IntegrityWarning.orphanedProductMetrics stats.orphaned_product_metrics]
     else [])
  (stats, warnings)

/-- The four input files of a full load: `none` marks a file that does
not exist at its default path. -/
structure FSFiles where
  productsFile : Option (List ProductsCSVRow)
  priceHistoryFile : Option (List PriceHistoryRow)
  salesRankFile : Option (List SalesRankHistoryRow)
  metricsFile : Option (List ProductMetricsRow)

/-- Result of a successful `run_full_load`. -/
structure FullLoadResult where
  products_count : ℕ
  price_history_count : ℕ
  sales_rank_history_count : ℕ
  product_metrics_count : ℕ
  stats : IntegrityStats
  warnings : List IntegrityWarning
  trace : List LoadStep
  finalDB : DB

/-- Embedding of `PostgresCSVLoader.run_full_load` (lines 367–428): load products,
then price history, then sales-rank history, then metrics, then run the
integrity pass; any raised error propagates (after rollback) as
`.error`. -/
def run_full_load (fs : FSFiles) (db0 : DB) : Except String FullLoadResult :=
  match load_products "data/products.csv" fs.productsFile [] db0 with
  | .error e => .error e
  | .ok (tr1, db1, pc) =>
    match load_price_history "data/price_history.csv" fs.priceHistoryFile tr1 db1 with
    | .error e => .error e
    | .ok (tr2, db2, phc) =>
      match load_sales_rank_history "data/sales_rank_history.csv" fs.salesRankFile tr2 db2 with
      | .error e => .error e
      | .ok (tr3, db3, srhc) =>
        let m := load_product_metrics "data/product_metrics.csv" fs.metricsFile tr3 db3
        let sw := verify_data_integrity m.db
        .ok { products_count := pc
              price_history_count := phc
              sales_rank_history_count := srhc
              product_metrics_count := m.count
              stats := sw.1
              warnings := sw.2
              trace := m.trace ++ [LoadStep.integrityCheck]
              finalDB := m.db }

end PostgresCSVLoader

/-! ## Query benchmarking (`src/benchmarks/query_performance.py`)

Elapsed wall-clock seconds are environment inputs: an iteration's outcome
is `some d` when the query function returns after `d` seconds and `none`
when it raises.  The benchmark's `float('inf')` sentinel makes timings
live in the extended rationals `ETime`. -/

/-- An elapsed time: a finite number of seconds or `float('inf')`. -/
inductive ETime where
  | fin (q : ℚ)
  | inf
deriving DecidableEq, Repr

/-- Float addition restricted to the values the benchmark produces:
infinity absorbs. -/
def ETime.add : ETime → ETime → ETime
  | .fin a, .fin b => .fin (a + b)
  | _, _ => .inf

/-- Python `sum` over a list of timings (starts from `0`). -/
def eSum (l : List ETime) : ETime := l.foldl ETime.add (.fin 0)

/-- Division of a timing by an iteration count: infinity stays
infinite. -/
def ETime.divNat : ETime → ℕ → ETime
  | .fin q, n => .fin (q / (n : ℚ))
  | .inf, _ => .inf

namespace QueryBenchmark

/-- One measurement loop of `benchmark_query` (lines 433–443 and
447–457): per iteration, a successful call appends its elapsed time and a
raised exception is caught and appends `float('inf')`. -/
def recordTimes (outcomes : List (Option ℚ)) : List ETime :=
  outcomes.map (fun o => match o with | some d => .fin d | none => .inf)

/-- Embedding of `sum(times) / len(times) if times else float('inf')`
(lines 460–461). -/
def avgTime (times : List ETime) : ETime :=
  if times.isEmpty then .inf else (eSum times).divNat times.length

/-- The timing parts of the dictionary returned by `benchmark_query`
(lines 484–492), together with the two per-iteration timing lists it
recorded. -/
structure BenchResult where
  postgres_times : List ETime
  mongodb_times : List ETime
  postgres_time : ETime
  mongodb_time : ETime
deriving DecidableEq, Repr

/-- Embedding of `QueryBenchmark.benchmark_query` (lines 407–492) given the outcome of
each PostgreSQL and each MongoDB iteration: record one timing per
iteration (infinity for a raised exception) and average each list. -/
def benchmark_query (pgOutcomes mgOutcomes : List (Option ℚ)) : BenchResult :=
  let pt := recordTimes pgOutcomes
  let mt := recordTimes mgOutcomes
  { postgres_times := pt
    mongodb_times := mt
    postgres_time := avgTime pt
    mongodb_time := avgTime mt }

end QueryBenchmark

/-! ## Dashboard chart rendering (`src/analysis/generate_dashboard.py`)

`generate_visualization` (lines 276–317) cleans the two mean timings of
each benchmarked query before drawing its bars: an infinite PostgreSQL
mean is replaced by `0` with no further marking, while a MongoDB mean
that is infinite or exactly `0` is replaced by `0` and remembered in
`mongodb_failed`, which later draws the red "Failed" annotation on the
MongoDB bar only. -/

namespace BenchmarkDashboard

/-- What the chart records for one benchmarked query. -/
structure ChartEntry where
  postgres_clean : ℚ
  mongodb_clean : ℚ
  mongodb_failed : Bool
deriving DecidableEq, Repr

/-- Per-query body of the cleaning loop of `generate_visualization`
(lines 281–288). -/
def chartEntryOf (pgTime mgTime : ETime) : ChartEntry :=
  { postgres_clean := match pgTime with | .inf => 0 | .fin q => q
    mongodb_clean :=
      if (mgTime == ETime.inf) || (mgTime == ETime.fin 0) then 0
      else match mgTime with | .inf => 0 | .fin q => q
    mongodb_failed := (mgTime == ETime.inf) || (mgTime == ETime.fin 0) }

/-- The two megabyte figures returned by `measure_storage_size`. -/
structure StorageResult where
  postgres_size_mb : ℚ
  mongodb_size_mb : ℚ
deriving DecidableEq, Repr

/-- The optional `dataSize` / `indexSize` fields of the MongoDB `dbStats`
command result, read with `stats.get('dataSize', 0)` and
`stats.get('indexSize', 0)` (line 201); sizes are byte counts. -/
structure MongoDbStats where
  dataSize : Option ℕ
  indexSize : Option ℕ
deriving DecidableEq, Repr

/-- Embedding of `BenchmarkDashboard.measure_storage_size` (lines 163–208): both
figures start at `0.0`; a successful measurement overwrites its figure
with bytes divided by `1024 * 1024`, and a raised exception (`none`
input) leaves the `0` in place. -/
def measure_storage_size (pgSizeBytes : Option ℕ)
    (mgStats : Option MongoDbStats) : StorageResult :=
  { postgres_size_mb :=
      match pgSizeBytes with
      | some b => (b : ℚ) / (1024 * 1024)
      | none => 0
    mongodb_size_mb :=
      match mgStats with
      | some s => ((s.dataSize.getD 0 + s.indexSize.getD 0 : ℕ) : ℚ) / (1024 * 1024)
      | none => 0 }

end BenchmarkDashboard

/-! ## Month derivation of the two price-trend queries
(`src/benchmarks/query_performance.py`)

The relational query computes `DATE_TRUNC('month', date)::DATE`
(line 70) on the parsed `date` column; the document-store pipeline
computes `$substr` of the first 7 characters of the stored date string
and concatenates `'-01'` (lines 132 and 154).  To compare the two, a
calendar date is embedded as year/month/day, PostgreSQL's (lenient,
zero-padding-insensitive) parsing of `Y-M-D` date text is embedded as
`parseCalDate`, and the truncated month is rendered back in the ISO form
PostgreSQL outputs. -/

/-- A calendar date. -/
structure CalDate where
  year : ℕ
  month : ℕ
  day : ℕ
deriving DecidableEq, Repr

/-- Embedding of `DATE_TRUNC('month', d)::DATE`: the first day of `d`'s calendar
month. -/
def date_trunc_month (d : CalDate) : CalDate :=
  { year := d.year, month := d.month, day := 1 }

/-- Two-digit zero padding. -/
def pad2 (n : ℕ) : String :=
  if n < 10 then "0" ++ toString n else toString n

/-- Four-digit zero padding. -/
def pad4 (n : ℕ) : String :=
  if n < 10 then "000" ++ toString n
  else if n < 100 then "00" ++ toString n
  else if n < 1000 then "0" ++ toString n
  else toString n

/-- ISO rendering of a date, as PostgreSQL outputs a `DATE`. -/
def isoOfCalDate (d : CalDate) : String :=
  pad4 d.year ++ "-" ++ pad2 d.month ++ "-" ++ pad2 d.day

/-- Split a character list at every `-`. -/
def splitDash : List Char → List (List Char) → List Char → List (List Char)
  | [], acc, cur => (cur.reverse :: acc).reverse
  | c :: rest, acc, cur =>
      if c = '-' then splitDash rest (cur.reverse :: acc) []
      else splitDash rest acc (c :: cur)

/-- Read a non-empty all-digit character list as a natural number. -/
def digitsToNat? (cs : List Char) : Option ℕ :=
  if cs ≠ [] ∧ cs.all (fun c => 48 ≤ c.toNat ∧ c.toNat ≤ 57) then
    some (cs.foldl (fun n c => n * 10 + (c.toNat - 48)) 0)
  else none

/-- PostgreSQL's parsing of `Y-M-D` date text: split on `-`, read the
three numeric fields (zero padding optional), require a plausible month
and day. -/
def parseCalDate (s : String) : Option CalDate :=
  match (splitDash s.toList [] []).map digitsToNat? with
  | [some y, some m, some d] =>
      if 1 ≤ m ∧ m ≤ 12 ∧ 1 ≤ d ∧ d ≤ 31 then some ⟨y, m, d⟩ else none
  | _ => none

/-- The pipeline's `year_month` field:
`$substr [$price_history.date, 0, 7]` (line 132).  `$substr` indexes
bytes; date strings are ASCII, so taking the first 7 characters is the
same. -/
def mongo_year_month (date : String) : String :=
  String.mk (date.toList.take 7)

/-- The pipeline's projected `month` field:
`$concat [$_id.year_month, '-01']` (line 154). -/
def mongo_month (date : String) : String := mongo_year_month date ++ "-01"

/-! ## Concrete fixtures used by witnesses -/

/-- A products row with ASIN `A`. -/
def prodRowA : ProductsCSVRow :=
  { asin := "A", title := "t", brand := "b", source_category := "c"
    current_price := "1.0", current_sales_rank := "2", rating := "4.5"
    review_count := some 3 }

/-- A price-history row whose ASIN `B` matches no product: an orphan. -/
def phRowOrphan : PriceHistoryRow :=
  { asin := "B", date := "2024-01-02", price_usd := "9.99"
    source_category := "c", brand := "b", price_bucket := "10-20" }

/-- Input files producing one product and one orphaned price-history row;
the optional metrics file is absent. -/
def fsOrphan : PostgresCSVLoader.FSFiles :=
  { productsFile := some [prodRowA]
    priceHistoryFile := some [phRowOrphan]
    salesRankFile := some []
    metricsFile := none }

/-- An empty relational store. -/
def emptyDB : PostgresCSVLoader.DB :=
  { products := [], price_history := [], sales_rank_history := []
    product_metrics := [] }

/-! ## Helper lemmas -/

/-- When every record's key is truthy, the code's deduplication loop
agrees with the claimed first-seen-order loop, for any starting `seen`
set. -/
theorem dedupAux_eq_claimed_of_truthy (keyField : String) (data : List Record)
    (h : ∀ r ∈ data, (recordGet r keyField).truthy = true) (seen : List PyVal) :
    DataTransformer.dedupAux keyField data seen =
      DataTransformer.claimedDedupAux keyField data seen := by
  induction data generalizing seen with
  | nil => rfl
  | cons item rest ih =>
      have hkey : (recordGet item keyField).truthy = true :=
        h item (List.mem_cons_self item rest)
      have hrest : ∀ r ∈ rest, (recordGet r keyField).truthy = true :=
        fun r hr => h r (List.mem_cons_of_mem item hr)
      simp only [DataTransformer.dedupAux, DataTransformer.claimedDedupAux]
      by_cases hmem : recordGet item keyField ∈ seen
      · simp [hkey, hmem, ih hrest]
      · simp [hkey, hmem, ih hrest]

/-- Every record in the output of the deduplication loop has a truthy
key. -/
theorem mem_dedupAux_truthy (keyField : String) (data : List Record)
    (seen : List PyVal) (r : Record)
    (hr : r ∈ DataTransformer.dedupAux keyField data seen) :
    (recordGet r keyField).truthy = true := by
  induction data generalizing seen with
  | nil => simp [DataTransformer.dedupAux] at hr
  | cons item rest ih =>
      simp only [DataTransformer.dedupAux] at hr
      by_cases hc : (recordGet item keyField).truthy = true ∧
          recordGet item keyField ∉ seen
      · rw [if_pos hc] at hr
        rcases List.mem_cons.mp hr with h | h
        · subst h; exact hc.1
        · exact ih _ h
      · rw [if_neg hc] at hr
        exact ih _ hr

/-- Adding infinity on the right gives infinity. -/
theorem eTimeAdd_inf_right (x : ETime) : ETime.add x .inf = .inf := by
  cases x <;> rfl

/-- Adding infinity on the left gives infinity. -/
theorem eTimeAdd_inf_left (x : ETime) : ETime.add .inf x = .inf := by
  cases x <;> rfl

/-- Folding `ETime.add` from an infinite accumulator stays infinite. -/
theorem foldl_eTimeAdd_inf (l : List ETime) :
    l.foldl ETime.add .inf = .inf := by
  induction l with
  | nil => rfl
  | cons a rest ih =>
      simp only [List.foldl, eTimeAdd_inf_left]
      exact ih

/-- Folding `ETime.add` over a list containing infinity gives
infinity. -/
theorem foldl_eTimeAdd_eq_inf_of_mem :
    ∀ (l : List ETime) (init : ETime), ETime.inf ∈ l →
      l.foldl ETime.add init = .inf
  | [], _, h => by simp at h
  | a :: rest, init, h => by
      simp only [List.foldl]
      rcases List.mem_cons.mp h with ha | ha
      · rw [← ha, eTimeAdd_inf_right]
        exact foldl_eTimeAdd_inf rest
      · exact foldl_eTimeAdd_eq_inf_of_mem rest _ ha

/-- A list containing an infinite timing sums to infinity. -/
theorem eSum_eq_inf_of_mem (l : List ETime) (h : ETime.inf ∈ l) :
    eSum l = .inf :=
  foldl_eTimeAdd_eq_inf_of_mem l _ h

/-- A nonempty list containing an infinite timing averages to
infinity. -/
theorem avgTime_eq_inf_of_mem (l : List ETime) (h : ETime.inf ∈ l) :
    QueryBenchmark.avgTime l = .inf := by
  unfold QueryBenchmark.avgTime
  rcases l with _ | ⟨a, rest⟩
  · simp at h
  · simp only [List.isEmpty_cons, if_false, Bool.false_eq_true, ite_false,
      eSum_eq_inf_of_mem _ h]
    rfl


/-- C1: the document-store price-trend query derives the month by
string-prefix slicing (first 7 characters plus `"-01"`) while the
relational query truncates the calendar month, and the two derivations
diverge on some date string: the non-zero-padded ISO-style date
`"2024-1-15"`, which PostgreSQL parses as 15 January 2024 and truncates
to `"2024-01-01"`, is sliced by the pipeline to `"2024-1--01"`. -/
theorem mongo_month_diverges_from_date_trunc :
    ∃ (s : String) (d : CalDate), parseCalDate s = some d ∧
      mongo_month s ≠ isoOfCalDate (date_trunc_month d) :=
  ⟨"2024-1-15", ⟨2024, 1, 15⟩, by decide, by decide⟩

/-- C2 counterexample: on the one-record list whose record lacks the key
field, `deduplicate` returns the empty list, while the claimed behaviour
(drop a record only when its key appeared in an earlier record) keeps the
record. -/
theorem deduplicate_counterexample_missing_key :
    DataTransformer.deduplicate [([] : Record)] "asin" = [] ∧
    DataTransformer.claimedDedup [([] : Record)] "asin" = [([] : Record)] := by
  decide

/-- C2 (amended): for every list of records in which every record's value
at the key field is truthy, `deduplicate` returns the records in
first-seen order with every record dropped whose key already appeared
earlier in the list; in particular the input
`[{asin:B001},{asin:B002},{asin:B001}]` yields
`[{asin:B001},{asin:B002}]`. -/
theorem deduplicate_firstSeen_of_truthy_keys
    (data : List Record) (keyField : String)
    (h : ∀ r ∈ data, (recordGet r keyField).truthy = true) :
    DataTransformer.deduplicate data keyField =
      DataTransformer.claimedDedup data keyField ∧
    DataTransformer.deduplicate
      [[("asin", PyVal.vstr "B001")], [("asin", PyVal.vstr "B002")],
       [("asin", PyVal.vstr "B001")]] "asin" =
      [[("asin", PyVal.vstr "B001")], [("asin", PyVal.vstr "B002")]] :=
  ⟨dedupAux_eq_claimed_of_truthy keyField data h [], by decide⟩

/-- C2 witness: the amended theorem applied to the spec's literal
three-record input. -/
theorem deduplicate_firstSeen_of_truthy_keys_witness :
    DataTransformer.deduplicate
      [[("asin", PyVal.vstr "B001")], [("asin", PyVal.vstr "B002")],
       [("asin", PyVal.vstr "B001")]] "asin" =
      DataTransformer.claimedDedup
        [[("asin", PyVal.vstr "B001")], [("asin", PyVal.vstr "B002")],
         [("asin", PyVal.vstr "B001")]] "asin" :=
  (deduplicate_firstSeen_of_truthy_keys
    [[("asin", PyVal.vstr "B001")], [("asin", PyVal.vstr "B002")],
     [("asin", PyVal.vstr "B001")]] "asin" (by decide)).1

/-- C10: a record whose value at the key field is absent or falsy
(`None`, the empty string, `0`) never appears in the output of
`deduplicate`, whatever the rest of the input list. -/
theorem deduplicate_never_outputs_falsy_key
    (data : List Record) (keyField : String) (r : Record)
    (h : (recordGet r keyField).truthy = false) :
    r ∉ DataTransformer.deduplicate data keyField := by
  intro hmem
  have htr := mem_dedupAux_truthy keyField data [] r hmem
  rw [h] at htr
  exact Bool.false_ne_true htr

/-- C10 witness: the record `{asin: ''}` is dropped even when it is the
only record in the list. -/
theorem deduplicate_never_outputs_falsy_key_witness :
    [("asin", PyVal.vstr "")] ∉
      DataTransformer.deduplicate [[("asin", PyVal.vstr "")]] "asin" :=
  deduplicate_never_outputs_falsy_key [[("asin", PyVal.vstr "")]] "asin"
    [("asin", PyVal.vstr "")] (by decide)

/-- C3: evaluation of the Mongo loader's per-row document construction at
the failing input.  A products row whose ASIN cell is missing (pandas
`NaN`) is claimed to produce no document; the code stringifies the cell
to `"nan"` before the `pd.isna` test (which is then always false on a
`str`), so the row produces a document with ASIN `"nan"`. -/
theorem mongo_load_emits_document_for_missing_asin :
    MongoCSVLoader.emittedDocs [] []
      [{ asin := none, title := some "Widget", brand := none,
         source_category := none, current_price := none,
         current_sales_rank := none, rating := none, review_count := none }] =
    [{ asin := "nan", title := some "Widget", brand := none,
       category := none, current_price := none, current_sales_rank := none,
       rating := none, review_count := none, price_history := [],
       sales_rank_history := [] }] := by
  decide

/-- C4: when the three required files exist, `run_full_load` succeeds and
performs its steps in the fixed order products, price history, sales-rank
history, metrics, integrity pass; every non-zero orphan count found by
the integrity pass appears among the logged warnings, and no orphan count
ever makes the load fail (the result is `.ok` for all file contents). -/
theorem run_full_load_fixed_order_and_orphan_warnings
    (fs : PostgresCSVLoader.FSFiles) (db : PostgresCSVLoader.DB)
    (ps : List ProductsCSVRow) (ph : List PriceHistoryRow)
    (srh : List SalesRankHistoryRow)
    (hps : fs.productsFile = some ps) (hph : fs.priceHistoryFile = some ph)
    (hsrh : fs.salesRankFile = some srh) :
    ∃ res, PostgresCSVLoader.run_full_load fs db = Except.ok res ∧
      res.trace = [PostgresCSVLoader.LoadStep.products,
        PostgresCSVLoader.LoadStep.priceHistory,
        PostgresCSVLoader.LoadStep.salesRankHistory,
        PostgresCSVLoader.LoadStep.productMetrics,
        PostgresCSVLoader.LoadStep.integrityCheck] ∧
      (0 < res.stats.orphaned_price_history →
        PostgresCSVLoader.IntegrityWarning.orphanedPriceHistory
          res.stats.orphaned_price_history ∈ res.warnings) ∧
      (0 < res.stats.orphaned_sales_rank_history →
        PostgresCSVLoader.IntegrityWarning.orphanedSalesRankHistory
          res.stats.orphaned_sales_rank_history ∈ res.warnings) ∧
      (0 < res.stats.orphaned_product_metrics →
        PostgresCSVLoader.IntegrityWarning.orphanedProductMetrics
          res.stats.orphaned_product_metrics ∈ res.warnings) := by
  rcases fs with ⟨pf, phf, srf, mf⟩
  simp only at hps hph hsrh
  subst hps hph hsrh
  cases mf with
  | none =>
      refine ⟨_, rfl, by simp [PostgresCSVLoader.run_full_load,
        PostgresCSVLoader.load_products, PostgresCSVLoader.load_price_history,
        PostgresCSVLoader.load_sales_rank_history,
        PostgresCSVLoader.load_product_metrics], ?_, ?_, ?_⟩ <;>
      · intro h
        simp only [PostgresCSVLoader.run_full_load,
          PostgresCSVLoader.load_products,
          PostgresCSVLoader.load_price_history,
          PostgresCSVLoader.load_sales_rank_history,
          PostgresCSVLoader.load_product_metrics,
          PostgresCSVLoader.verify_data_integrity, List.map_append,
          List.map_map] at h ⊢
        simp [h]
  | some rows =>
      refine ⟨_, rfl, by simp [PostgresCSVLoader.run_full_load,
        PostgresCSVLoader.load_products, PostgresCSVLoader.load_price_history,
        PostgresCSVLoader.load_sales_rank_history,
        PostgresCSVLoader.load_product_metrics], ?_, ?_, ?_⟩ <;>
      · intro h
        simp only [PostgresCSVLoader.run_full_load,
          PostgresCSVLoader.load_products,
          PostgresCSVLoader.load_price_history,
          PostgresCSVLoader.load_sales_rank_history,
          PostgresCSVLoader.load_product_metrics,
          PostgresCSVLoader.verify_data_integrity, List.map_append,
          List.map_map] at h ⊢
        simp [h]

/-- C4 witness: a concrete load whose price-history file holds one row
with no matching product; the load succeeds in the fixed step order and
the orphan is reported. -/
theorem run_full_load_fixed_order_witness :
    ∃ res, PostgresCSVLoader.run_full_load fsOrphan emptyDB = Except.ok res ∧
      res.trace = [PostgresCSVLoader.LoadStep.products,
        PostgresCSVLoader.LoadStep.priceHistory,
        PostgresCSVLoader.LoadStep.salesRankHistory,
        PostgresCSVLoader.LoadStep.productMetrics,
        PostgresCSVLoader.LoadStep.integrityCheck] ∧
      (0 < res.stats.orphaned_price_history →
        PostgresCSVLoader.IntegrityWarning.orphanedPriceHistory
          res.stats.orphaned_price_history ∈ res.warnings) ∧
      (0 < res.stats.orphaned_sales_rank_history →
        PostgresCSVLoader.IntegrityWarning.orphanedSalesRankHistory
          res.stats.orphaned_sales_rank_history ∈ res.warnings) ∧
      (0 < res.stats.orphaned_product_metrics →
        PostgresCSVLoader.IntegrityWarning.orphanedProductMetrics
          res.stats.orphaned_product_metrics ∈ res.warnings) :=
  run_full_load_fixed_order_and_orphan_warnings fsOrphan emptyDB
    [prodRowA] [phRowOrphan] [] rfl rfl rfl

/-- C5: benchmarking a query over `N ≥ 1` iterations records exactly `N`
per-iteration durations for each store, and each reported mean is the sum
of the recorded durations divided by `N`. -/
theorem benchmark_query_iterations_and_mean
    (N : ℕ) (pg mg : List (Option ℚ)) (hN : 1 ≤ N)
    (hpg : pg.length = N) (hmg : mg.length = N) :
    (QueryBenchmark.benchmark_query pg mg).postgres_times.length = N ∧
    (QueryBenchmark.benchmark_query pg mg).mongodb_times.length = N ∧
    (QueryBenchmark.benchmark_query pg mg).postgres_time =
      (eSum (QueryBenchmark.benchmark_query pg mg).postgres_times).divNat N ∧
    (QueryBenchmark.benchmark_query pg mg).mongodb_time =
      (eSum (QueryBenchmark.benchmark_query pg mg).mongodb_times).divNat N := by
  have hplen : (QueryBenchmark.recordTimes pg).length = N := by
    simp [QueryBenchmark.recordTimes, hpg]
  have hmlen : (QueryBenchmark.recordTimes mg).length = N := by
    simp [QueryBenchmark.recordTimes, hmg]
  have hpe : (QueryBenchmark.recordTimes pg).isEmpty = false := by
    rcases h : QueryBenchmark.recordTimes pg with _ | ⟨a, rest⟩
    · rw [h] at hplen; simp at hplen; omega
    · simp
  have hme : (QueryBenchmark.recordTimes mg).isEmpty = false := by
    rcases h : QueryBenchmark.recordTimes mg with _ | ⟨a, rest⟩
    · rw [h] at hmlen; simp at hmlen; omega
    · simp
  refine ⟨hplen, hmlen, ?_, ?_⟩ <;>
    simp [QueryBenchmark.benchmark_query, QueryBenchmark.avgTime, hpe, hme,
      hplen, hmlen]

/-- C5 witness: two iterations per store, the second PostgreSQL iteration
raising. -/
theorem benchmark_query_iterations_and_mean_witness :
    (QueryBenchmark.benchmark_query [some 1, none] [some 2, some 4]).postgres_times.length = 2 ∧
    (QueryBenchmark.benchmark_query [some 1, none] [some 2, some 4]).mongodb_times.length = 2 ∧
    (QueryBenchmark.benchmark_query [some 1, none] [some 2, some 4]).postgres_time =
      (eSum (QueryBenchmark.benchmark_query [some 1, none] [some 2, some 4]).postgres_times).divNat 2 ∧
    (QueryBenchmark.benchmark_query [some 1, none] [some 2, some 4]).mongodb_time =
      (eSum (QueryBenchmark.benchmark_query [some 1, none] [some 2, some 4]).mongodb_times).divNat 2 :=
  benchmark_query_iterations_and_mean 2 [some 1, none] [some 2, some 4]
    (by decide) rfl rfl

/-- C6 counterexample: a PostgreSQL query that raises in its only
iteration is recorded with an infinite mean, yet the chart entry built
for the query is identical to the entry of a query that genuinely took
zero seconds, and the only failure flag the rendering computes (the
MongoDB one) is false: the chart does not mark the failed query as
failed. -/
theorem postgres_failure_unmarked_counterexample :
    (QueryBenchmark.benchmark_query [none] [some 1]).postgres_time = ETime.inf ∧
    BenchmarkDashboard.chartEntryOf
        (QueryBenchmark.benchmark_query [none] [some 1]).postgres_time
        (QueryBenchmark.benchmark_query [none] [some 1]).mongodb_time =
      BenchmarkDashboard.chartEntryOf (ETime.fin 0) (ETime.fin 1) ∧
    (BenchmarkDashboard.chartEntryOf
        (QueryBenchmark.benchmark_query [none] [some 1]).postgres_time
        (QueryBenchmark.benchmark_query [none] [some 1]).mongodb_time).mongodb_failed
      = false := by
  have h1 : (QueryBenchmark.benchmark_query [none] [some 1]).postgres_time
      = ETime.inf := rfl
  have h2 : (QueryBenchmark.benchmark_query [none] [some 1]).mongodb_time
      = ETime.fin 1 := by
    norm_num [QueryBenchmark.benchmark_query, QueryBenchmark.recordTimes,
      QueryBenchmark.avgTime, eSum, ETime.add, ETime.divNat]
  refine ⟨h1, ?_, ?_⟩ <;> rw [h1, h2] <;> rfl

/-- C6 (amended): an iteration whose query function raises is recorded as
an infinite timing instead of propagating, and the run completes with a
result; the chart rendering marks the query as failed on the MongoDB side
(whose infinite mean sets the `mongodb_failed` flag that draws the
"Failed" annotation), while an infinite PostgreSQL mean is only replaced
by a zero bar height, with no failure marker. -/
theorem benchmark_failures_recorded_inf_and_mongo_marked
    (pg mg : List (Option ℚ)) (i j : ℕ) :
    (pg[i]? = some none →
      (QueryBenchmark.benchmark_query pg mg).postgres_times[i]? = some ETime.inf ∧
      (QueryBenchmark.benchmark_query pg mg).postgres_time = ETime.inf ∧
      (BenchmarkDashboard.chartEntryOf
        (QueryBenchmark.benchmark_query pg mg).postgres_time
        (QueryBenchmark.benchmark_query pg mg).mongodb_time).postgres_clean = 0) ∧
    (mg[j]? = some none →
      (QueryBenchmark.benchmark_query pg mg).mongodb_times[j]? = some ETime.inf ∧
      (QueryBenchmark.benchmark_query pg mg).mongodb_time = ETime.inf ∧
      (BenchmarkDashboard.chartEntryOf
        (QueryBenchmark.benchmark_query pg mg).postgres_time
        (QueryBenchmark.benchmark_query pg mg).mongodb_time).mongodb_failed = true) := by
  constructor
  · intro hpi
    have hget : (QueryBenchmark.recordTimes pg)[i]? = some ETime.inf := by
      simp [QueryBenchmark.recordTimes, List.getElem?_map, hpi]
    have hmem : ETime.inf ∈ QueryBenchmark.recordTimes pg := by
      exact List.getElem?_mem hget
    have havg : QueryBenchmark.avgTime (QueryBenchmark.recordTimes pg) = .inf :=
      avgTime_eq_inf_of_mem _ hmem
    refine ⟨hget, havg, ?_⟩
    simp [QueryBenchmark.benchmark_query, BenchmarkDashboard.chartEntryOf, havg]
  · intro hmj
    have hget : (QueryBenchmark.recordTimes mg)[j]? = some ETime.inf := by
      simp [QueryBenchmark.recordTimes, List.getElem?_map, hmj]
    have hmem : ETime.inf ∈ QueryBenchmark.recordTimes mg := by
      exact List.getElem?_mem hget
    have havg : QueryBenchmark.avgTime (QueryBenchmark.recordTimes mg) = .inf :=
      avgTime_eq_inf_of_mem _ hmem
    refine ⟨hget, havg, ?_⟩
    simp [QueryBenchmark.benchmark_query, BenchmarkDashboard.chartEntryOf, havg]

/-- C6 witness: one PostgreSQL iteration raising and the second of two
MongoDB iterations raising. -/
theorem benchmark_failures_recorded_inf_witness :
    ((QueryBenchmark.benchmark_query [none] [some 1, none]).postgres_times[0]? = some ETime.inf ∧
     (QueryBenchmark.benchmark_query [none] [some 1, none]).postgres_time = ETime.inf ∧
     (BenchmarkDashboard.chartEntryOf
       (QueryBenchmark.benchmark_query [none] [some 1, none]).postgres_time
       (QueryBenchmark.benchmark_query [none] [some 1, none]).mongodb_time).postgres_clean = 0) ∧
    ((QueryBenchmark.benchmark_query [none] [some 1, none]).mongodb_times[1]? = some ETime.inf ∧
     (QueryBenchmark.benchmark_query [none] [some 1, none]).mongodb_time = ETime.inf ∧
     (BenchmarkDashboard.chartEntryOf
       (QueryBenchmark.benchmark_query [none] [some 1, none]).postgres_time
       (QueryBenchmark.benchmark_query [none] [some 1, none]).mongodb_time).mongodb_failed = true) :=
  ⟨(benchmark_failures_recorded_inf_and_mongo_marked [none] [some 1, none] 0 1).1 rfl,
   (benchmark_failures_recorded_inf_and_mongo_marked [none] [some 1, none] 0 1).2 rfl⟩

/-- C7: for every path, loading a required file (products, price history,
sales-rank history) that does not exist raises an error and aborts that
load, while loading the optional product-metrics file when it does not
exist logs a warning, leaves the store untouched, and returns a count of
zero. -/
theorem missing_required_fatal_missing_optional_zero
    (path : String) (tr : List PostgresCSVLoader.LoadStep)
    (db : PostgresCSVLoader.DB) :
    PostgresCSVLoader.load_products path none tr db =
      Except.error ("Products file not found: " ++ path) ∧
    PostgresCSVLoader.load_price_history path none tr db =
      Except.error ("Price history file not found: " ++ path) ∧
    PostgresCSVLoader.load_sales_rank_history path none tr db =
      Except.error ("Sales rank history file not found: " ++ path) ∧
    (PostgresCSVLoader.load_product_metrics path none tr db).count = 0 ∧
    (PostgresCSVLoader.load_product_metrics path none tr db).db = db ∧
    (PostgresCSVLoader.load_product_metrics path none tr db).warnedMissing = true :=
  ⟨rfl, rfl, rfl, rfl, rfl, rfl⟩

/-- C8: storage-size measurement always returns a non-negative megabyte
figure for each store; a failed measurement (a raised exception, `none`
input) and an empty store (zero bytes) both yield `0` for that store, and
no input makes the function fail. -/
theorem measure_storage_size_nonneg_and_zero_on_failure
    (pg : Option ℕ) (mg : Option BenchmarkDashboard.MongoDbStats) :
    0 ≤ (BenchmarkDashboard.measure_storage_size pg mg).postgres_size_mb ∧
    0 ≤ (BenchmarkDashboard.measure_storage_size pg mg).mongodb_size_mb ∧
    (pg = none →
      (BenchmarkDashboard.measure_storage_size pg mg).postgres_size_mb = 0) ∧
    (mg = none →
      (BenchmarkDashboard.measure_storage_size pg mg).mongodb_size_mb = 0) ∧
    (pg = some 0 →
      (BenchmarkDashboard.measure_storage_size pg mg).postgres_size_mb = 0) := by
  refine ⟨?_, ?_, ?_, ?_, ?_⟩
  · cases pg with
    | none => simp [BenchmarkDashboard.measure_storage_size]
    | some b =>
        simp only [BenchmarkDashboard.measure_storage_size]
        positivity
  · cases mg with
    | none => simp [BenchmarkDashboard.measure_storage_size]
    | some s =>
        simp only [BenchmarkDashboard.measure_storage_size]
        positivity
  · intro h; subst h; rfl
  · intro h; subst h; rfl
  · intro h; subst h
    simp [BenchmarkDashboard.measure_storage_size]

/-- C8 witness: both measurements raising yields `0` and `0`. -/
theorem measure_storage_size_zero_on_failure_witness :
    (BenchmarkDashboard.measure_storage_size none none).postgres_size_mb = 0 ∧
    (BenchmarkDashboard.measure_storage_size none none).mongodb_size_mb = 0 :=
  ⟨(measure_storage_size_nonneg_and_zero_on_failure none none).2.2.1 rfl,
   (measure_storage_size_nonneg_and_zero_on_failure none none).2.2.2.1 rfl⟩

/-- C9: after every completed run of the Mongo product load, both
in-memory ASIN-to-history dictionaries are empty, whatever the initial
state, the input rows, the batch size, and which insert batches
failed. -/
theorem mongo_load_products_clears_history_dicts
    (st : MongoCSVLoader.State) (rows : List MongoProductRow)
    (batchSize : ℕ) (fails : ℕ → Bool) :
    (MongoCSVLoader.load_products st rows batchSize fails).price_history_dict = [] ∧
    (MongoCSVLoader.load_products st rows batchSize fails).sales_rank_history_dict = [] :=
  ⟨rfl, rfl⟩
